import Mathlib

/-!
Verification of the X11 event dispatcher of herbstluftwm
(`src/xmainloop.cpp`, `src/xmainloop.h`).

The development shallowly embeds the dispatcher: X event records become a
Lean structure mirroring the fields the handlers read, the handler table
becomes a function from event type codes to an optional handler name built
by the same sequence of assignments as the constructor, and each handler
relevant to the claims becomes a pure Lean function from its inputs (event,
collaborator environment) to its new state and a log of the external calls
it issues, in order.  External collaborators (ClientManager, MonitorManager,
Ewmh, Commands, ...) are parameters of the embedding, as the spec treats
them as named interfaces.
-/

namespace X11

/-- Event type codes from X.h. -/
def KeyPress : Nat := 2

def ButtonPress : Nat := 4

def ButtonRelease : Nat := 5

def MotionNotify : Nat := 6

def EnterNotify : Nat := 7

def LeaveNotify : Nat := 8

def FocusIn : Nat := 9

def FocusOut : Nat := 10

def KeymapNotify : Nat := 11

def Expose : Nat := 12

def CreateNotify : Nat := 16

def DestroyNotify : Nat := 17

def UnmapNotify : Nat := 18

def MapNotify : Nat := 19

def MapRequest : Nat := 20

def ConfigureNotify : Nat := 22

def ConfigureRequest : Nat := 23

def PropertyNotify : Nat := 28

def SelectionClear : Nat := 29

def ClientMessage : Nat := 33

def MappingNotify : Nat := 34

def LASTEvent : Nat := 36

/-- Bits of an XConfigureRequestEvent value mask (X.h). -/
def CWX : Nat := 1

def CWY : Nat := 2

def CWWidth : Nat := 4

def CWHeight : Nat := 8

/-- Crossing / focus event modes and details (X.h). -/
def NotifyNormal : Nat := 0

def NotifyGrab : Nat := 1

def NotifyUngrab : Nat := 2

def NotifyInferior : Nat := 2

def NotifyNonlinear : Nat := 3

def NotifyNonlinearVirtual : Nat := 4

end X11

/-- The fields of the XEvent union that the dispatcher and the handlers
under verification read.  `type_` is the event type code; `event` is the
reporting window of an UnmapNotify; `selection` the cleared selection of a
SelectionClear; `mode`, `detail`, `focus` the crossing/focus fields;
`value_mask`, `x`, `y`, `width`, `height`, `border_width`, `above` the
ConfigureRequest fields (`detail` doubles as the requested stack mode, as
in the union). -/
structure XEvent where
  type_ : Nat
  window : Nat
  event : Nat
  send_event : Bool
  selection : Nat
  mode : Nat
  detail : Nat
  focus : Bool
  value_mask : Nat
  x : Int
  y : Int
  width : Int
  height : Int
  border_width : Int
  above : Nat
deriving DecidableEq, Repr

/-- An event record with every field zeroed; concrete events in the
theorems below are built by updating it. -/
def baseEvent : XEvent :=
  { type_ := 0, window := 0, event := 0, send_event := false, selection := 0
  , mode := 0, detail := 0, focus := false, value_mask := 0
  , x := 0, y := 0, width := 0, height := 0, border_width := 0, above := 0 }

/-- The member functions of XMainLoop that can be stored in
`handlerTable_`; one constructor per handler of `xmainloop.cpp`. -/
inductive HandlerName where
  | buttonpress
  | buttonrelease
  | clientmessage
  | configurenotify
  | configurerequest
  | createnotify
  | destroynotify
  | enternotify
  | expose
  | focusin
  | keypress
  | mapnotify
  | maprequest
  | mappingnotify
  | motionnotify
  | propertynotify
  | unmapnotify
  | selectionclear
deriving DecidableEq, Repr

/-- One assignment `handlerTable_[code] = handler` of the constructor. -/
def assignHandler (t : Nat → Option HandlerName) (code : Nat) (h : HandlerName) :
    Nat → Option HandlerName :=
  fun c => if c = code then some h else t c

/-- `handlerTable_` as populated by the XMainLoop constructor: the table
starts out all null (value initialization of the array member) and then
receives the eighteen assignments of lines 61-78 of `xmainloop.cpp`, in
that order.  It is a constant of the development, which is the shallow
counterpart of the table never being written after construction. -/
def handlerTable : Nat → Option HandlerName :=
  assignHandler (assignHandler (assignHandler (assignHandler (assignHandler
  (assignHandler (assignHandler (assignHandler (assignHandler (assignHandler
  (assignHandler (assignHandler (assignHandler (assignHandler (assignHandler
  (assignHandler (assignHandler (assignHandler (fun _ => none)
    X11.ButtonPress HandlerName.buttonpress)
    X11.ButtonRelease HandlerName.buttonrelease)
    X11.ClientMessage HandlerName.clientmessage)
    X11.ConfigureNotify HandlerName.configurenotify)
    X11.ConfigureRequest HandlerName.configurerequest)
    X11.CreateNotify HandlerName.createnotify)
    X11.DestroyNotify HandlerName.destroynotify)
    X11.EnterNotify HandlerName.enternotify)
    X11.Expose HandlerName.expose)
    X11.FocusIn HandlerName.focusin)
    X11.KeyPress HandlerName.keypress)
    X11.MapNotify HandlerName.mapnotify)
    X11.MapRequest HandlerName.maprequest)
    X11.MappingNotify HandlerName.mappingnotify)
    X11.MotionNotify HandlerName.motionnotify)
    X11.PropertyNotify HandlerName.propertynotify)
    X11.UnmapNotify HandlerName.unmapnotify)
    X11.SelectionClear HandlerName.selectionclear

/-! ## The dispatcher loop (`XMainLoop::run`, `XMainLoop::quit`,
`XMainLoop::selectionclear`) -/

/-- The data of the loop environment that `selectionclear` consults: the
window manager selection atom and the manager's owning window
(`root_->ewmh_.windowManagerSelection()` / `windowManagerWindow()`). -/
structure LoopEnv where
  wmSelection : Nat
  wmWindow : Nat
deriving DecidableEq, Repr

/-- `XMainLoop::selectionclear` (lines 586-594): if the cleared selection
is the WM selection on the manager's owning window, call `quit()`, which
sets `aboutToQuit_`; otherwise the flag is left alone. -/
def selectionclear (env : LoopEnv) (e : XEvent) (aboutToQuit : Bool) : Bool :=
  if e.selection = env.wmSelection ∧ e.window = env.wmWindow then true else aboutToQuit

/-- The effect of dispatching one event on the `aboutToQuit_` flag.  Of
the handlers in `xmainloop.cpp`, only `selectionclear` calls `quit()`;
every other handler leaves the flag unchanged. -/
def handlerStep (env : LoopEnv) (e : XEvent) (q : Bool) : Bool :=
  match handlerTable e.type_ with
  | some HandlerName.selectionclear => selectionclear env e q
  | _ => q

/-- The `aboutToQuit_` flag after the inner drain loop of `run` (lines
185-193) has consumed the given queue.  The drain reads events while the
queue is nonempty and never consults the flag. -/
def drainFlag (env : LoopEnv) : List XEvent → Bool → Bool
  | [], q => q
  | e :: rest, q => drainFlag env rest (handlerStep env e q)

/-- The dispatch log of the drain loop: one entry per event read by
`XNextEvent`, paired with the table lookup `handlerTable_[event.type]`
that decides which handler (if any) is invoked on it. -/
def drainList (env : LoopEnv) : List XEvent → Bool → List (XEvent × Option HandlerName)
  | [], _ => []
  | e :: rest, q => (e, handlerTable e.type_) :: drainList env rest (handlerStep env e q)

/-- The events of a drained queue that are passed to a registered handler
while `aboutToQuit_` is already true at the moment of dispatch. -/
def dispatchedAfterQuit (env : LoopEnv) : List XEvent → Bool → List XEvent
  | [], _ => []
  | e :: rest, q =>
    (if q ∧ (handlerTable e.type_).isSome then [e] else [])
      ++ dispatchedAfterQuit env rest (handlerStep env e q)

/-- One wakeup of the outer loop: `externalQuit` models `quit()` being
called from outside the drain (while the loop was blocked in `select`),
and `events` is the batch of events read during the following drain
session (including events that arrive mid-drain via `XSync`). -/
structure Batch where
  externalQuit : Bool
  events : List XEvent
deriving DecidableEq, Repr

/-- The `aboutToQuit_` flag after `XMainLoop::run` has processed the given
wakeups, mirroring lines 170-194: the flag is checked at the loop head
(`while (!aboutToQuit_)`) and again right after `select` returns
(`if (aboutToQuit_) break`); in between batches nothing else touches it. -/
def runFlag (env : LoopEnv) : List Batch → Bool → Bool
  | [], q => q
  | b :: rest, q =>
    if q then q
    else
      let q1 := q || b.externalQuit
      if q1 then q1
      else runFlag env rest (drainFlag env b.events q1)

/-- The events that `XMainLoop::run` passes to a registered handler, over
the given wakeups, starting from the given `aboutToQuit_` flag. -/
def runDispatched (env : LoopEnv) : List Batch → Bool → List XEvent
  | [], _ => []
  | b :: rest, q =>
    if q then []
    else
      let q1 := q || b.externalQuit
      if q1 then []
      else
        (drainList env b.events q1).filterMap
            (fun p => if p.2.isSome then some p.1 else none)
          ++ runDispatched env rest (drainFlag env b.events q1)

/-- The events that `XMainLoop::run` passes to a registered handler at a
moment where `aboutToQuit_` is already true. -/
def runAfterQuit (env : LoopEnv) : List Batch → Bool → List XEvent
  | [], _ => []
  | b :: rest, q =>
    if q then []
    else
      let q1 := q || b.externalQuit
      if q1 then []
      else
        dispatchedAfterQuit env b.events q1
          ++ runAfterQuit env rest (drainFlag env b.events q1)

/-! ## `XMainLoop::configurerequest` (lines 292-374) -/

/-- A geometry rectangle (x11-types.h `Rectangle`). -/
structure Rectangle where
  x : Int
  y : Int
  width : Int
  height : Int
deriving DecidableEq, Repr

/-- The client state that `configurerequest` reads and writes.  `window` is
the client's X window; `floated` is the value of `is_client_floated()` and
`pseudotile_`, `sizehints_floating_`, `float_size_`, `last_size_`, `tag`
are the members of `Client` of the same names (the Client class itself is
an external collaborator of `xmainloop.cpp`). -/
structure ClientM where
  window : Nat
  float_size_ : Rectangle
  last_size_ : Rectangle
  sizehints_floating_ : Bool
  floated : Bool
  pseudotile_ : Bool
  tag : Nat
deriving DecidableEq, Repr

/-- The monitor fields that `configurerequest` reads: `rect->x`, `rect->y`,
`pad_left`, `pad_up`. -/
structure MonitorM where
  rect_x : Int
  rect_y : Int
  pad_left : Int
  pad_up : Int
deriving DecidableEq, Repr

/-- The monitor collaborators of `configurerequest`: `monitors->byTag`
(also `find_monitor_with_tag`), `monitors->byCoordinate`,
`monitors->focus()` (total: hlwm always has a focused monitor), and
`get_current_client()` as the focused client's window. -/
structure CREnv where
  byTag : Nat → Option MonitorM
  byCoordinate : Int → Int → Option MonitorM
  focusM : MonitorM
  currentClient : Option Nat

/-- The external calls the ConfigureRequest handler can issue.
`resizeFloating` is `client->resize_floating(monitor, isFocused)`;
`applyLayout` is `monitor->applyLayout()`; `sendConfigure` is
`client->send_configure(true)`, which per the spec sends the client a
synthetic ConfigureNotify reporting its current geometry;
`configureWindow` is the `XConfigureWindow` passthrough for unmanaged
windows, carrying the XWindowChanges fields copied from the request. -/
inductive CRAction where
  | resizeFloating (m : Option MonitorM) (asCurrent : Bool)
  | applyLayout (m : MonitorM)
  | sendConfigure (geometry : Rectangle)
  | configureWindow (w : Nat) (mask : Nat) (x y width height bw : Int)
      (sibling : Nat) (stack : Nat)
deriving DecidableEq, Repr

/-- Lines 296-347 of `configurerequest`: the computation of the `changes`
flag and of `newRect`, translated statement by statement (the sequential
`if (...) changes = true;` updates become disjunctions in source order;
the in-place updates of `cre->x`, `cre->y` and `newRect` become
rebindings). -/
def crComputeManaged (env : CREnv) (client : ClientM) (cre : XEvent) :
    Bool × Rectangle :=
  if client.sizehints_floating_ && (client.floated || client.pseudotile_) then
    let width_requested := (cre.value_mask &&& X11.CWWidth) != 0
    let height_requested := (cre.value_mask &&& X11.CWHeight) != 0
    let x_requested := (cre.value_mask &&& X11.CWX) != 0
    let y_requested := (cre.value_mask &&& X11.CWY) != 0
    let newRect := client.float_size_
    let changes := false
    let changes := changes || (width_requested && (newRect.width != cre.width))
    let changes := changes || (height_requested && (newRect.height != cre.height))
    let changes := changes || x_requested || y_requested
    let newRect :=
      if x_requested || y_requested then
        let cx := if x_requested then cre.x else client.last_size_.x
        let cy := if y_requested then cre.y else client.last_size_.y
        let m : MonitorM :=
          match env.byTag client.tag with
          | some m => m
          | none =>
            match env.byCoordinate cx cy with
            | some m => m
            | none => env.focusM
        { newRect with x := cx - (m.rect_x + m.pad_left)
                     , y := cy - (m.rect_y + m.pad_up) }
      else newRect
    let newRect :=
      if width_requested then { newRect with width := cre.width } else newRect
    let newRect :=
      if height_requested then { newRect with height := cre.height } else newRect
    (changes, newRect)
  else
    (false, client.float_size_)

/-- Lines 348-360 of `configurerequest`: the managed-client branch.
Returns the client state after the handler and the log of external calls
it issues. -/
def configurerequestManaged (env : CREnv) (client : ClientM) (cre : XEvent) :
    ClientM × List CRAction :=
  let r := crComputeManaged env client cre
  let changes := r.1
  let newRect := r.2
  if changes && client.floated then
    ({ client with float_size_ := newRect },
     [CRAction.resizeFloating (env.byTag client.tag)
        (env.currentClient == some client.window)])
  else if changes && client.pseudotile_ then
    ({ client with float_size_ := newRect },
     match env.byTag client.tag with
     | some m => [CRAction.applyLayout m]
     | none => [])
  else
    (client, [CRAction.sendConfigure client.last_size_])

/-- `XMainLoop::configurerequest` whole: look the window up in the client
list; a managed client goes through the managed branch, an unknown window
has the request forwarded verbatim via `XConfigureWindow`. -/
def configurerequest (env : CREnv) (clients : Nat → Option ClientM) (cre : XEvent) :
    Option ClientM × List CRAction :=
  match clients cre.window with
  | some client =>
    let r := configurerequestManaged env client cre
    (some r.1, r.2)
  | none =>
    (none, [CRAction.configureWindow cre.window cre.value_mask cre.x cre.y
              cre.width cre.height cre.border_width cre.above cre.detail])

/-- Whether a log of ConfigureRequest actions contains a
`send_configure` call. -/
def crDidSendConfigure (acts : List CRAction) : Bool :=
  acts.any fun a =>
    match a with
    | CRAction.sendConfigure _ => true
    | _ => false

/-! ## `XMainLoop::enternotify` (lines 410-455) -/

/-- The layout algorithms of a frame leaf (layout.h). -/
inductive LayoutAlgorithm where
  | vertical
  | horizontal
  | max
  | grid
deriving DecidableEq, Repr

/-- The frame-leaf fields `enternotify` reads: `getLayout()` and
`focusedClient()` (none models a null Client pointer). -/
structure FrameLeafM where
  layout : LayoutAlgorithm
  focusedClient : Option Nat
deriving DecidableEq, Repr

/-- The collaborators of `enternotify`: client lookup by window
(`root_->clients->client`), decoration-to-client resolution
(`Decoration::toClient`), per-client tag floating flag (`c->tag()->floating`),
the frame leaf containing a client
(`c->tag()->frame->root_->frameWithClient(c)`), frame decoration lookup
(`FrameDecoration::withWindow` composed with `frame()`), the mouse drag
state and the `focus_follows_mouse` setting. -/
structure EnterEnv where
  clientOfWindow : Nat → Option Nat
  decorationToClient : Nat → Option Nat
  tagFloatingOf : Nat → Bool
  frameWithClient : Nat → Option FrameLeafM
  frameDecoWithWindow : Nat → Option Nat
  mouseDragging : Bool
  focusFollowsMouse : Bool

/-- The external calls `enternotify` can issue. -/
inductive EnterAction where
  | updateResizeAreaCursors (c : Nat)
  | focusClient (c : Nat)
  | focusFrame (f : Nat)
deriving DecidableEq, Repr

/-- Whether an `enternotify` action changes the focus (of a client or of a
frame). -/
def EnterAction.isFocusChange : EnterAction → Bool
  | EnterAction.focusClient _ => true
  | EnterAction.focusFrame _ => true
  | EnterAction.updateResizeAreaCursors _ => false

/-- Client resolution in `enternotify`: `root_->clients->client(ce->window)`,
falling back to the decoration's client. -/
def resolveEnterClient (env : EnterEnv) (w : Nat) : Option Nat :=
  match env.clientOfWindow w with
  | some c => some c
  | none => env.decorationToClient w

/-- `XMainLoop::enternotify`, returning the ordered log of external calls.
Events whose mode is not Normal or whose detail is Inferior are dropped;
a decoration target has its resize-area cursors refreshed; then, when no
drag is in progress, `focus_follows_mouse` is on and the event's focus
field is false, the resolved client is focused unless it sits in a
non-floating tag whose leaf uses the max layout with a different focused
client; an unresolvable window falls back to frame-decoration focusing. -/
def enternotify (env : EnterEnv) (ce : XEvent) : List EnterAction :=
  if ce.mode != X11.NotifyNormal || ce.detail == X11.NotifyInferior then []
  else
    let log0 : List EnterAction :=
      match env.decorationToClient ce.window with
      | some c => [EnterAction.updateResizeAreaCursors c]
      | none => []
    if !env.mouseDragging && env.focusFollowsMouse && (ce.focus == false) then
      match resolveEnterClient env ce.window with
      | some c =>
        if env.tagFloatingOf c == false
            && (match env.frameWithClient c with
                | some target =>
                  (target.layout == LayoutAlgorithm.max)
                    && (target.focusedClient != some c)
                | none => false) then
          log0
        else
          log0 ++ [EnterAction.focusClient c]
      | none =>
        match env.frameDecoWithWindow ce.window with
        | some f => log0 ++ [EnterAction.focusFrame f]
        | none => log0
    else log0

/-! ## `XMainLoop::focusin` (lines 463-497) -/

/-- The collaborators of `focusin`: the manager's currently focused client
window (`root_->clients->focus()`, none when no client is focused) and
client lookup by window. -/
structure FocusEnv where
  currentFocusWindow : Option Nat
  clientOfWindow : Nat → Option Nat

/-- The external calls `focusin` can issue: `focus_client(target, false,
true, false)`, where the target pointer may be null when the stealing
window is not a managed client. -/
inductive FocusAction where
  | focusClient (target : Option Nat)
deriving DecidableEq, Repr

/-- Lines 484-487: `currentFocus` starts at 0 and is overwritten with the
focused client's window when one exists. -/
def currentFocusOf (env : FocusEnv) : Nat :=
  match env.currentFocusWindow with
  | some w => w
  | none => 0

/-- The event left in the local variable after the
`while (XCheckMaskEvent(..., FocusChangeMask, event))` drain: each queued
focus-change event overwrites it, so the last one wins; with an empty
queue the original event stays. -/
def lastEvent : XEvent → List XEvent → XEvent
  | e, [] => e
  | _, e2 :: rest => lastEvent e2 rest

/-- `XMainLoop::focusin`: drain the focus-change queue keeping only the
newest event, then re-assert the focus (one `focus_client` call) exactly
when the surviving event is a FocusIn with detail NotifyNonlinear or
NotifyNonlinearVirtual whose window differs from the manager's current
focus.  `queued` is the run of queued events matching FocusChangeMask
(FocusIn and FocusOut events alike). -/
def focusin (env : FocusEnv) (e0 : XEvent) (queued : List XEvent) :
    List FocusAction :=
  if (lastEvent e0 queued).type_ == X11.FocusIn
      && ((lastEvent e0 queued).detail == X11.NotifyNonlinear
          || (lastEvent e0 queued).detail == X11.NotifyNonlinearVirtual) then
    if (lastEvent e0 queued).window != currentFocusOf env then
      [FocusAction.focusClient (env.clientOfWindow (lastEvent e0 queued).window)]
    else []
  else []

/-! ## `XMainLoop::unmapnotify` (lines 638-663) -/

/-- The external calls `unmapnotify` issues, in order:
`root_->clients()->unmap_notify(window)`, `XUnmapWindow(display, window)`,
`XSync`, and the drain of all queued EnterWindow-masked events
(`while (XCheckMaskEvent(..., EnterWindowMask, ...))`). -/
inductive UnmapAction where
  | unmapNotifyCM (w : Nat)
  | xUnmapWindow (w : Nat)
  | sync
  | drainEnterEvents
deriving DecidableEq, Repr

/-- `XMainLoop::unmapnotify`: the ClientManager is notified only when the
reporting window equals the target window, the explicit `XUnmapWindow`
happens only for synthetic events, and every call ends with a sync and an
EnterNotify drain. -/
def unmapnotify (e : XEvent) : List UnmapAction :=
  (if e.window == e.event then [UnmapAction.unmapNotifyCM e.window] else [])
    ++ (if e.send_event then [UnmapAction.xUnmapWindow e.window] else [])
    ++ [UnmapAction.sync, UnmapAction.drainEnterEvents]

/-! ## `XMainLoop::callCommand` (lines 665-681) -/

/-- The `Input` value handed to the command interpreter: a command name
and an argument list (command.h is an external collaborator; only the
constructor arguments used by `callCommand` are modelled). -/
structure InputM where
  command : String
  args : List String
deriving DecidableEq, Repr

/-- `IpcServer::CallResult`: exit code plus the text captured from the
output and error streams. -/
structure CallResult where
  exitCode : Int
  output : String
  error : String
deriving DecidableEq, Repr

/-- `XMainLoop::callCommand`: build the `Input` from the call sequence
(empty call: empty command name and the empty sequence as arguments;
otherwise head and tail), invoke `Commands::call` on it, and return its
exit code with the captured stream contents verbatim.  The interpreter is
the external parameter `commandsCall`, returning (exit code, stdout text,
stderr text). -/
def callCommand (commandsCall : InputM → Int × String × String)
    (call : List String) : CallResult :=
  let input : InputM :=
    if call.isEmpty then { command := "", args := call }
    else { command := call.headD "", args := call.tail }
  let r := commandsCall input
  { exitCode := r.1, output := r.2.1, error := r.2.2 }

/-! ## `XMainLoop::scanExistingClients` (lines 90-162), first pass -/

/-- The window attributes the scan reads: `override_redirect` and whether
`map_state == IsViewable`. -/
structure WindowAttributes where
  override_redirect : Bool
  viewable : Bool
deriving DecidableEq, Repr

/-- The EWMH window type as compared against `NetWmWindowTypeDesktop` and
`NetWmWindowTypeDock`. -/
inductive WindowKind where
  | desktop
  | dock
  | other
deriving DecidableEq, Repr

/-- The client record returned by `manage_client`, reduced to the field
the scan dereferences (`c->tag()`). -/
structure ScanClient where
  tag : Nat
deriving DecidableEq, Repr

/-- The collaborators of the scan's first pass.  `manage_client` returns
none for a null `Client*` (its callers in `clientmanager` can fail, e.g.
for windows rejected by rules or already-managed windows);
`byTagMonitor` is whether `monitors->byTag(tag)` finds a monitor. -/
structure ScanEnv where
  getWindowAttributes : Nat → Option WindowAttributes
  isOwnWindow : Nat → Bool
  getWindowType : Nat → WindowKind
  originalClients : List Nat
  manage_client : Nat → Option ScanClient
  byTagMonitor : Nat → Bool

/-- A fault of the scan: dereferencing the null pointer returned by
`manage_client` (the unchecked `c->tag()` of line 143). -/
inductive ScanError where
  | nullDeref (w : Nat)
deriving DecidableEq, Repr

/-- The external calls of the scan's first pass. -/
inductive ScanAction where
  | registerDesktop (w : Nat)
  | restack
  | mapWindow (w : Nat)
  | registerPanel (w : Nat)
  | selectInput (w : Nat)
  | manageClient (w : Nat)
deriving DecidableEq, Repr

/-- One iteration of the first scan loop (lines 115-147): skip windows
without attributes, with override_redirect, or owned by the manager;
register desktop and dock windows; manage viewable windows and windows of
the previous WM's client list, dereferencing the returned client pointer
(`c->tag()`) with no null check — a null return is the `nullDeref`
fault. -/
def scanWindow (env : ScanEnv) (win : Nat) : Except ScanError (List ScanAction) :=
  match env.getWindowAttributes win with
  | none => Except.ok []
  | some wa =>
    if wa.override_redirect then Except.ok []
    else if env.isOwnWindow win then Except.ok []
    else
      match env.getWindowType win with
      | WindowKind.desktop =>
        Except.ok [ScanAction.registerDesktop win, ScanAction.restack,
                   ScanAction.mapWindow win]
      | WindowKind.dock =>
        Except.ok [ScanAction.registerPanel win, ScanAction.selectInput win,
                   ScanAction.mapWindow win]
      | WindowKind.other =>
        if wa.viewable || env.originalClients.contains win then
          match env.manage_client win with
          | none => Except.error (ScanError.nullDeref win)
          | some c =>
            if env.byTagMonitor c.tag then
              Except.ok [ScanAction.manageClient win, ScanAction.mapWindow win]
            else
              Except.ok [ScanAction.manageClient win]
        else Except.ok []

/-- The first pass of `scanExistingClients` over the query-tree result,
propagating a null-pointer fault. -/
def scanFirstPass (env : ScanEnv) : List Nat → Except ScanError (List ScanAction)
  | [] => Except.ok []
  | w :: rest =>
    match scanWindow env w with
    | Except.error e => Except.error e
    | Except.ok acts =>
      match scanFirstPass env rest with
      | Except.error e => Except.error e
      | Except.ok acts2 => Except.ok (acts ++ acts2)

/-- Whether the first pass classifies a window as a client to manage
(attributes fetchable, not override-redirect, not the manager's own, not
desktop or dock, and viewable or listed in the previous WM's client
list). -/
def clientClassified (env : ScanEnv) (win : Nat) : Bool :=
  match env.getWindowAttributes win with
  | none => false
  | some wa =>
    !wa.override_redirect && !env.isOwnWindow win
      && (match env.getWindowType win with
          | WindowKind.other => true
          | _ => false)
      && (wa.viewable || env.originalClients.contains win)

/-- Whether the scan ran without a fault. -/
def scanOk : Except ScanError (List ScanAction) → Bool
  | Except.ok _ => true
  | Except.error _ => false

/-! ## Concrete inputs for the closed instances below -/

/-- A loop environment whose WM selection atom is 1 on window 2. -/
def egLoopEnv : LoopEnv := { wmSelection := 1, wmWindow := 2 }

/-- A SelectionClear event matching `egLoopEnv`'s WM selection: its
handler calls `quit()`. -/
def egScEvent : XEvent :=
  { baseEvent with type_ := X11.SelectionClear, selection := 1, window := 2 }

/-- A ButtonPress event, queued behind `egScEvent`. -/
def egBpEvent : XEvent := { baseEvent with type_ := X11.ButtonPress, window := 3 }

/-- A drain batch holding the WM-replacement event followed by one more
event. -/
def egQuitBatch : Batch := { externalQuit := false, events := [egScEvent, egBpEvent] }

/-- A tiled managed client: neither floating nor pseudotiled. -/
def egTiledClient : ClientM :=
  { window := 7, float_size_ := ⟨1, 2, 30, 40⟩, last_size_ := ⟨5, 6, 70, 80⟩
  , sizehints_floating_ := true, floated := false, pseudotile_ := false, tag := 0 }

/-- A floating client honoring floating size hints. -/
def egFloatClient : ClientM :=
  { window := 8, float_size_ := ⟨10, 20, 300, 400⟩, last_size_ := ⟨10, 20, 300, 400⟩
  , sizehints_floating_ := true, floated := true, pseudotile_ := false, tag := 0 }

/-- A monitor environment with no monitor on any tag or coordinate. -/
def egCREnv : CREnv :=
  { byTag := fun _ => none, byCoordinate := fun _ _ => none
  , focusM := { rect_x := 0, rect_y := 0, pad_left := 0, pad_up := 0 }
  , currentClient := none }

/-- A client list holding only `egTiledClient` on window 7. -/
def egClients : Nat → Option ClientM :=
  fun w => if w == 7 then some egTiledClient else none

/-- A ConfigureRequest for window 7 with all seven mask bits set. -/
def egCreAllBits : XEvent :=
  { baseEvent with
    type_ := X11.ConfigureRequest, window := 7, value_mask := 127,
    x := 100, y := 200, width := 300, height := 400 }

/-- A ConfigureRequest asking only for x, with the x coordinate equal to
the client's current floating position. -/
def egCreXOnly : XEvent :=
  { baseEvent with
    type_ := X11.ConfigureRequest, window := 8, value_mask := X11.CWX,
    x := 10 }

/-- A frame leaf in max layout whose focused client is client 9. -/
def egMaxLeaf : FrameLeafM := { layout := LayoutAlgorithm.max, focusedClient := some 9 }

/-- An environment where window 11 is the decoration of client 4, client
4 sits in a non-floating tag inside `egMaxLeaf`, no drag is in progress
and `focus_follows_mouse` is on. -/
def egEnterEnv : EnterEnv :=
  { clientOfWindow := fun _ => none
  , decorationToClient := fun w => if w == 11 then some 4 else none
  , tagFloatingOf := fun _ => false
  , frameWithClient := fun c => if c == 4 then some egMaxLeaf else none
  , frameDecoWithWindow := fun _ => none
  , mouseDragging := false
  , focusFollowsMouse := true }

/-- A normal-mode EnterNotify on window 11 whose focus field is false. -/
def egEnterEvent : XEvent :=
  { baseEvent with
    type_ := X11.EnterNotify, window := 11, mode := X11.NotifyNormal,
    detail := 0, focus := false }

/-- A focus environment: the manager's focus is on window 5 and no window
resolves to a managed client. -/
def egFocusEnv : FocusEnv :=
  { currentFocusWindow := some 5, clientOfWindow := fun _ => none }

/-- A FocusIn event for window 9 with detail NotifyNonlinear. -/
def egFocusInEvent : XEvent :=
  { baseEvent with type_ := X11.FocusIn, window := 9, detail := X11.NotifyNonlinear }

/-- A FocusOut event for window 9 with detail NotifyNonlinear. -/
def egFocusOutEvent : XEvent :=
  { baseEvent with type_ := X11.FocusOut, window := 9, detail := X11.NotifyNonlinear }

/-- A synthetic UnmapNotify whose reporting window equals its target. -/
def egUnmapEvent : XEvent :=
  { baseEvent with type_ := X11.UnmapNotify, window := 7, event := 7, send_event := true }

/-- A scan environment where window 5 is a viewable plain window (hence
classified as a client) and `manage_client` succeeds on it, placing it on
tag 0. -/
def egScanEnv : ScanEnv :=
  { getWindowAttributes := fun _ => some { override_redirect := false, viewable := true }
  , isOwnWindow := fun _ => false
  , getWindowType := fun _ => WindowKind.other
  , originalClients := []
  , manage_client := fun _ => some { tag := 0 }
  , byTagMonitor := fun _ => true }

/-! # Theorems -/

/-- No handler turns the quit flag off: dispatching any event starting
from a set flag leaves it set. -/
theorem handlerStep_true (env : LoopEnv) (e : XEvent) : handlerStep env e true = true := by
  unfold handlerStep
  split
  · unfold selectionclear
    split <;> rfl
  · rfl

/-- The drain loop never resets a set quit flag. -/
theorem drainFlag_true (env : LoopEnv) (evs : List XEvent) :
    drainFlag env evs true = true := by
  induction evs with
  | nil => rfl
  | cons e rest ih =>
    simp only [drainFlag, handlerStep_true]
    exact ih

/-- With the flag set at the loop head, no event of any batch is
dispatched after it. -/
theorem runAfterQuit_of_true (env : LoopEnv) (batches : List Batch) :
    runAfterQuit env batches true = [] := by
  cases batches with
  | nil => rfl
  | cons b rest => simp [runAfterQuit]

/-- An event dispatched after the flag is set, within one drain session,
belongs to that session's queue, and the drain ends with the flag set. -/
theorem mem_dispatchedAfterQuit (env : LoopEnv) (evs : List XEvent) (q : Bool) (e : XEvent)
    (h : e ∈ dispatchedAfterQuit env evs q) :
    e ∈ evs ∧ drainFlag env evs q = true := by
  induction evs generalizing q with
  | nil => simp [dispatchedAfterQuit] at h
  | cons ev rest ih =>
    unfold dispatchedAfterQuit at h
    rcases List.mem_append.mp h with h1 | h1
    · split at h1
      case isTrue hc =>
        rcases List.mem_singleton.mp h1 with rfl
        refine ⟨List.mem_cons_self e rest, ?_⟩
        have hq : q = true := hc.1
        subst hq
        simp only [drainFlag, handlerStep_true]
        exact drainFlag_true env rest
      case isFalse hc => simp at h1
    · have h2 := ih (handlerStep env ev q) h1
      exact ⟨List.mem_cons_of_mem ev h2.1, h2.2⟩

/-- An event dispatched after the quit flag became true always lies in
the batch whose drain set the flag. -/
theorem runAfterQuit_within_batch (env : LoopEnv) (batches : List Batch) (e : XEvent)
    (h : e ∈ runAfterQuit env batches false) :
    ∃ b, b ∈ batches ∧ e ∈ b.events ∧ b.externalQuit = false ∧
      drainFlag env b.events false = true := by
  induction batches with
  | nil => simp [runAfterQuit] at h
  | cons b rest ih =>
    unfold runAfterQuit at h
    simp only [Bool.false_or, Bool.false_eq_true, if_false] at h
    by_cases hb : b.externalQuit = true
    · rw [hb] at h
      simp at h
    · have hb2 : b.externalQuit = false := Bool.eq_false_iff.mpr hb
      rw [hb2] at h
      simp only [Bool.false_eq_true, if_false] at h
      rcases List.mem_append.mp h with h1 | h1
      · have h2 := mem_dispatchedAfterQuit env b.events false e h1
        exact ⟨b, List.mem_cons_self b rest, h2.1, hb2, h2.2⟩
      · cases hq : drainFlag env b.events false with
        | true =>
          rw [hq, runAfterQuit_of_true] at h1
          simp at h1
        | false =>
          rw [hq] at h1
          rcases ih h1 with ⟨bb, hmem, hrest⟩
          exact ⟨bb, List.mem_cons_of_mem b hmem, hrest⟩

/-- Claim C1, counterexample: the claim that no event is read and passed to a
handler after `aboutToQuit_` becomes true fails on the code.  With the WM
selection 1 on window 2, a drain batch holding the matching SelectionClear
event followed by a ButtonPress dispatches the ButtonPress to its handler
although the SelectionClear handler has already set the flag: the inner
drain loop of `run` checks `XQLength` only, never `aboutToQuit_`. -/
theorem quitflag_next_event_dispatch_cex :
    runAfterQuit egLoopEnv [egQuitBatch] false = [egBpEvent] ∧
    runAfterQuit egLoopEnv [egQuitBatch] false ≠ [] := by
  exact ⟨by decide, by decide⟩

/-- Claim C1, amended: once `aboutToQuit_` is set, the dispatcher terminates at
the next safe point, before any further event batch: (1) with the flag set
at the loop head nothing more is dispatched; (2) with the flag set during
`select`, the post-select check stops the loop before the batch is
drained; (3) any event passed to a handler after the flag became true
belongs to the very batch whose drain set the flag — the current drain is
finished, but no later batch is read. -/
theorem quitflag_terminates_at_safe_points (env : LoopEnv) (b : Batch)
    (rest : List Batch) (batches : List Batch) (e : XEvent) :
    runDispatched env batches true = [] ∧
    (b.externalQuit = true → runDispatched env (b :: rest) false = []) ∧
    (e ∈ runAfterQuit env batches false →
      ∃ bb, bb ∈ batches ∧ e ∈ bb.events ∧ bb.externalQuit = false ∧
        drainFlag env bb.events false = true) := by
  refine ⟨?_, ?_, ?_⟩
  · cases batches with
    | nil => rfl
    | cons b2 rest2 => simp [runDispatched]
  · intro hb
    unfold runDispatched
    simp [hb]
  · exact runAfterQuit_within_batch env batches e

/-- Claim C2: dispatch is a pure lookup in the table built once at
construction: the drain loop reads every queued event exactly once and in
order, and each event is paired with precisely `handlerTable_[event.type]`
— the registered handler when the slot is filled, no handler at all (a
silent drop, no error) when the slot is null. -/
theorem drain_dispatch_is_table_lookup (env : LoopEnv) (queue : List XEvent) (q : Bool) :
    (drainList env queue q).map Prod.fst = queue ∧
    ∀ p ∈ drainList env queue q, p.2 = handlerTable p.1.type_ := by
  induction queue generalizing q with
  | nil => exact ⟨rfl, by intro p hp; simp [drainList] at hp⟩
  | cons e rest ih =>
    refine ⟨?_, ?_⟩
    · simp only [drainList, List.map_cons]
      rw [(ih (handlerStep env e q)).1]
    · intro p hp
      simp only [drainList, List.mem_cons] at hp
      rcases hp with hp | hp
      · rw [hp]
      · exact (ih (handlerStep env e q)).2 p hp

/-- Claim C3: a ConfigureRequest for a managed client that is tiled (neither
floating nor pseudotiled) changes no geometry state — the client record,
including `float_size_` and `last_size_`, is returned unchanged — and
issues exactly one call: the synthetic ConfigureNotify
(`send_configure(true)`) reporting the client's current geometry.  No
layout re-application and no XConfigureWindow happens, whatever the value
mask (all bits set included). -/
theorem tiled_configurerequest_confignotify (env : CREnv) (clients : Nat → Option ClientM)
    (cre : XEvent) (client : ClientM) (hc : clients cre.window = some client)
    (hf : client.floated = false) (hp : client.pseudotile_ = false) :
    configurerequest env clients cre =
      (some client, [CRAction.sendConfigure client.last_size_]) := by
  simp only [configurerequest, hc]
  simp only [configurerequestManaged, crComputeManaged, hf, hp]
  simp

/-- Claim C3, witness: the tiled client on window 7 receives a ConfigureRequest
with all seven mask bits set; the handler leaves it unchanged and sends
the synthetic ConfigureNotify with its current geometry. -/
theorem tiled_configurerequest_confignotify_witness :
    configurerequest egCREnv egClients egCreAllBits =
      (some egTiledClient, [CRAction.sendConfigure egTiledClient.last_size_]) :=
  tiled_configurerequest_confignotify egCREnv egClients egCreAllBits egTiledClient rfl rfl rfl

/-- Claim C4: an EnterNotify with mode Normal and detail other than Inferior,
while no drag is in progress, `focus_follows_mouse` is on and the event's
focus field is false, performs no focus change at all — neither
`focus_client` nor a frame focus — when the resolved client sits in a
non-floating tag whose containing frame leaf uses the max layout and that
leaf's focused client is a different one. -/
theorem enternotify_max_layout_no_focus (env : EnterEnv) (ce : XEvent) (c : Nat)
    (t : FrameLeafM) (hmode : ce.mode = X11.NotifyNormal)
    (hdetail : ce.detail ≠ X11.NotifyInferior) (hdrag : env.mouseDragging = false)
    (hffm : env.focusFollowsMouse = true) (hfocus : ce.focus = false)
    (hc : resolveEnterClient env ce.window = some c) (hfloat : env.tagFloatingOf c = false)
    (ht : env.frameWithClient c = some t) (hmax : t.layout = LayoutAlgorithm.max)
    (hne : t.focusedClient ≠ some c) :
    ∀ a ∈ enternotify env ce, EnterAction.isFocusChange a = false := by
  intro a ha
  have hne2 : (t.focusedClient != some c) = true := bne_iff_ne.mpr hne
  simp only [enternotify, hmode, hdrag, hffm, hfocus, hc, hfloat, ht, hmax, hne2] at ha
  simp [hdetail] at ha
  rcases hdc : env.decorationToClient ce.window with _ | d
  · rw [hdc] at ha
    simp at ha
  · rw [hdc] at ha
    simp only [List.mem_singleton] at ha
    rw [ha]
    rfl

/-- Claim C4, witness: the pointer enters window 11 — the decoration of client
4, whose max-layout leaf focuses client 9 — with focus-follows-mouse on,
no drag, mode Normal, detail 0; the only action the handler takes, the
cursor refresh, is not a focus change. -/
theorem enternotify_max_layout_no_focus_witness :
    EnterAction.isFocusChange (EnterAction.updateResizeAreaCursors 4) = false :=
  enternotify_max_layout_no_focus egEnterEnv egEnterEvent 4 egMaxLeaf rfl (by decide)
    rfl rfl rfl rfl rfl rfl rfl (by decide)
    (EnterAction.updateResizeAreaCursors 4) (by decide)

/-- Claim C5: `focusin` drains the whole focus-change queue keeping only the
most recent event `fn`; it performs at most one focus re-assertion, and
any re-assertion it performs corresponds to `fn` — resolving `fn`'s
window — and happens only if `fn`'s detail is NotifyNonlinear or
NotifyNonlinearVirtual and `fn`'s window differs from the manager's
currently focused client's window. -/
theorem focusin_single_reassertion (env : FocusEnv) (e0 : XEvent) (queued : List XEvent) :
    (focusin env e0 queued).length ≤ 1 ∧
    ∀ a ∈ focusin env e0 queued,
      a = FocusAction.focusClient (env.clientOfWindow (lastEvent e0 queued).window) ∧
      ((lastEvent e0 queued).detail = X11.NotifyNonlinear ∨
        (lastEvent e0 queued).detail = X11.NotifyNonlinearVirtual) ∧
      (lastEvent e0 queued).window ≠ currentFocusOf env := by
  constructor
  · unfold focusin
    split
    · split
      · simp
      · simp
    · simp
  · intro a ha
    unfold focusin at ha
    split at ha
    case isTrue hcond =>
      split at ha
      case isTrue hw =>
        simp only [List.mem_singleton] at ha
        refine ⟨ha, ?_, ?_⟩
        · have h2 := (Bool.and_eq_true _ _).mp hcond
          rcases (Bool.or_eq_true _ _).mp h2.2 with h3 | h3
          · exact Or.inl (by simpa using h3)
          · exact Or.inr (by simpa using h3)
        · simpa [bne_iff_ne] using hw
      case isFalse hw => simp at ha
    case isFalse hcond => simp at ha

/-- Claim C6: an UnmapNotify with `send_event` true whose window equals its
reporting window makes the handler issue, in this order: the
ClientManager's `unmap_notify(window)`, the explicit `XUnmapWindow` on the
window, a sync, and the drain of all queued EnterWindow-masked events. -/
theorem synthetic_unmap_call_order (e : XEvent) (hs : e.send_event = true)
    (hw : e.window = e.event) :
    unmapnotify e =
      [UnmapAction.unmapNotifyCM e.window, UnmapAction.xUnmapWindow e.window,
       UnmapAction.sync, UnmapAction.drainEnterEvents] := by
  have hw2 : (e.window == e.event) = true := beq_iff_eq.mpr hw
  unfold unmapnotify
  rw [hs, hw2]
  simp

/-- Claim C6, witness: the synthetic UnmapNotify on window 7 reporting itself
produces exactly the four calls in order. -/
theorem synthetic_unmap_call_order_witness :
    unmapnotify egUnmapEvent =
      [UnmapAction.unmapNotifyCM 7, UnmapAction.xUnmapWindow 7,
       UnmapAction.sync, UnmapAction.drainEnterEvents] :=
  synthetic_unmap_call_order egUnmapEvent rfl rfl

/-- Claim C7: `callCommand` hands the command interpreter the head of the call
sequence as the command name and the tail as the argument list — for the
empty sequence, an empty name and an empty argument list — and returns
the interpreter's exit code and the captured output and error text
verbatim. -/
theorem callCommand_verbatim (interp : InputM → Int × String × String) (c : String)
    (args : List String) :
    callCommand interp (c :: args) =
      { exitCode := (interp { command := c, args := args }).1
      , output := (interp { command := c, args := args }).2.1
      , error := (interp { command := c, args := args }).2.2 } ∧
    callCommand interp [] =
      { exitCode := (interp { command := "", args := [] }).1
      , output := (interp { command := "", args := [] }).2.1
      , error := (interp { command := "", args := [] }).2.2 } :=
  ⟨rfl, rfl⟩

/-- When the client honors floating size hints and is floating or
pseudotiled, the `changes` flag computed by `configurerequest` is: a width
request differing from the current floating width, or a height request
differing from the current floating height, or any x or y request at
all. -/
theorem crComputeManaged_changes (env : CREnv) (client : ClientM) (cre : XEvent)
    (hcond : (client.sizehints_floating_ && (client.floated || client.pseudotile_)) = true) :
    (crComputeManaged env client cre).1 =
      ((((cre.value_mask &&& X11.CWWidth) != 0) && (client.float_size_.width != cre.width))
        || (((cre.value_mask &&& X11.CWHeight) != 0) && (client.float_size_.height != cre.height))
        || ((cre.value_mask &&& X11.CWX) != 0) || ((cre.value_mask &&& X11.CWY) != 0)) := by
  unfold crComputeManaged
  rw [hcond]
  simp

/-- Claim C8: for a managed client honoring floating size hints that is floating
or pseudotiled, a ConfigureRequest whose mask has CWX or CWY set is always
treated as an effective change — the handler takes the geometry-update
path (floating resize or layout re-application) and never the synthetic
ConfigureNotify — even when the requested coordinates equal the current
position; whereas with no x/y bit set, the request counts as a change
exactly when a requested width or height differs from the current floating
size. -/
theorem floating_xy_always_effective (env : CREnv) (client : ClientM) (cre : XEvent)
    (hs : client.sizehints_floating_ = true)
    (hfp : client.floated = true ∨ client.pseudotile_ = true) :
    ((((cre.value_mask &&& X11.CWX) != 0) || ((cre.value_mask &&& X11.CWY) != 0)) = true →
      (crComputeManaged env client cre).1 = true ∧
      crDidSendConfigure (configurerequestManaged env client cre).2 = false) ∧
    (((cre.value_mask &&& X11.CWX) = 0 ∧ (cre.value_mask &&& X11.CWY) = 0) →
      ((crComputeManaged env client cre).1 = true ↔
        ((((cre.value_mask &&& X11.CWWidth) != 0)
            && (client.float_size_.width != cre.width)) = true ∨
         (((cre.value_mask &&& X11.CWHeight) != 0)
            && (client.float_size_.height != cre.height)) = true))) := by
  have hcond : (client.sizehints_floating_ && (client.floated || client.pseudotile_)) = true := by
    rcases hfp with h | h <;> simp [hs, h]
  constructor
  · intro hxy
    have hch : (crComputeManaged env client cre).1 = true := by
      rw [crComputeManaged_changes env client cre hcond]
      rcases (Bool.or_eq_true _ _).mp hxy with h | h <;> simp [h]
    refine ⟨hch, ?_⟩
    rcases hfl : client.floated with _ | _
    · have hps : client.pseudotile_ = true := by
        rcases hfp with h | h
        · rw [hfl] at h; exact absurd h (by simp)
        · exact h
      rcases hm : env.byTag client.tag with _ | m <;>
        simp [configurerequestManaged, hch, hfl, hps, hm, crDidSendConfigure]
    · rcases hm : env.byTag client.tag with _ | m <;>
        simp [configurerequestManaged, hch, hfl, hm, crDidSendConfigure]
  · intro hxy0
    rw [crComputeManaged_changes env client cre hcond]
    have h1 : ((cre.value_mask &&& X11.CWX) != 0) = false := by
      simp [hxy0.1]
    have h2 : ((cre.value_mask &&& X11.CWY) != 0) = false := by
      simp [hxy0.2]
    rw [h1, h2]
    simp

/-- Claim C8, witness: the floating client on window 8 receives a request with
only CWX set and the requested x equal to its current floating position
(10); the request still counts as a change and no synthetic
ConfigureNotify is sent. -/
theorem floating_xy_always_effective_witness :
    (crComputeManaged egCREnv egFloatClient egCreXOnly).1 = true ∧
    crDidSendConfigure (configurerequestManaged egCREnv egFloatClient egCreXOnly).2 = false :=
  (floating_xy_always_effective egCREnv egFloatClient egCreXOnly rfl (Or.inl rfl)).1
    (by decide)

/-- Claim C9: the focus-change drain of `focusin` matches the whole
FocusChange mask, so the surviving newest event can be a FocusOut; since
the handler re-asserts focus only when that event's type is FocusIn, a
burst whose last event is a FocusOut causes no focus change at all. -/
theorem focusout_tail_no_reassertion (env : FocusEnv) (e0 : XEvent)
    (queued : List XEvent) (h : (lastEvent e0 queued).type_ = X11.FocusOut) :
    focusin env e0 queued = [] := by
  unfold focusin
  rw [h]
  simp [X11.FocusOut, X11.FocusIn]

/-- Claim C9, witness: a FocusIn for window 9 followed in the queue by a
FocusOut for the same window: the drain keeps the FocusOut and no focus
re-assertion happens. -/
theorem focusout_tail_no_reassertion_witness :
    focusin egFocusEnv egFocusInEvent [egFocusOutEvent] = [] :=
  focusout_tail_no_reassertion egFocusEnv egFocusInEvent [egFocusOutEvent] rfl

/-- A single scan step is fault-free exactly when the window, if
classified as a client, is successfully managed. -/
theorem scanWindow_ok_iff (env : ScanEnv) (w : Nat) :
    scanOk (scanWindow env w) = true ↔
      (clientClassified env w = true → (env.manage_client w).isSome = true) := by
  unfold scanWindow clientClassified
  rcases hwa : env.getWindowAttributes w with _ | wa
  · simp [hwa, scanOk]
  · by_cases hor : wa.override_redirect = true
    · simp [hwa, hor, scanOk]
    · have hor2 : wa.override_redirect = false := Bool.eq_false_iff.mpr hor
      by_cases hown : env.isOwnWindow w = true
      · simp [hwa, hor2, hown, scanOk]
      · have hown2 : env.isOwnWindow w = false := Bool.eq_false_iff.mpr hown
        rcases hk : env.getWindowType w with _ | _ | _
        · simp [hwa, hor2, hown2, hk, scanOk]
        · simp [hwa, hor2, hown2, hk, scanOk]
        · by_cases hv : wa.viewable = true ∨ w ∈ env.originalClients
          · rcases hm : env.manage_client w with _ | c
            · rcases hv with h | h <;> simp [hwa, hor2, hown2, hk, h, hm, scanOk]
            · by_cases hb : env.byTagMonitor c.tag = true
              · rcases hv with h | h <;> simp [hwa, hor2, hown2, hk, h, hm, hb, scanOk]
              · have hb2 : env.byTagMonitor c.tag = false := Bool.eq_false_iff.mpr hb
                rcases hv with h | h <;> simp [hwa, hor2, hown2, hk, h, hm, hb2, scanOk]
          · simp [hwa, hor2, hown2, hk, hv, scanOk]

/-- Claim C10: the first pass of `scanExistingClients` dereferences the pointer
returned by `manage_client` (`c->tag()`) with no null check; over any
window list, the pass is free of the null dereference if and only if
`manage_client` returns non-null on every window the pass classifies as a
client. -/
theorem scan_firstpass_safe_iff (env : ScanEnv) (wins : List Nat) :
    scanOk (scanFirstPass env wins) = true ↔
      ∀ w ∈ wins, clientClassified env w = true → (env.manage_client w).isSome = true := by
  induction wins with
  | nil => simp [scanFirstPass, scanOk]
  | cons w rest ih =>
    rw [List.forall_mem_cons]
    unfold scanFirstPass
    cases hw : scanWindow env w with
    | error e =>
      have hP : ¬ (clientClassified env w = true → (env.manage_client w).isSome = true) := by
        intro hPw
        have h2 := (scanWindow_ok_iff env w).mpr hPw
        rw [hw] at h2
        simp [scanOk] at h2
      simp only [hw, scanOk]
      constructor
      · intro h2
        exact absurd h2 (by simp)
      · intro h2
        exact absurd h2.1 hP
    | ok acts =>
      have hP : clientClassified env w = true → (env.manage_client w).isSome = true := by
        apply (scanWindow_ok_iff env w).mp
        rw [hw]
        rfl
      cases hrest : scanFirstPass env rest with
      | error e2 =>
        have hne : scanOk (scanFirstPass env rest) = false := by rw [hrest]; rfl
        have hQ : ¬ ∀ w2 ∈ rest,
            clientClassified env w2 = true → (env.manage_client w2).isSome = true := by
          intro hq
          have h3 := ih.mpr hq
          rw [hne] at h3
          exact Bool.false_ne_true h3
        simp only [hw, hrest, scanOk]
        constructor
        · intro h2
          exact absurd h2 (by simp)
        · intro h2
          exact absurd h2.2 hQ
      | ok acts2 =>
        have hQ : ∀ w2 ∈ rest,
            clientClassified env w2 = true → (env.manage_client w2).isSome = true := by
          apply ih.mp
          rw [hrest]
          rfl
        simp only [hw, hrest, scanOk]
        constructor
        · intro h2
          exact ⟨hP, hQ⟩
        · intro h2
          trivial
